import Mathlib

/-!
Shallow embedding of the AlignmentEnforcer vault core: the `ConstitutionLock`
class of `constitution_lock.py` (password-derived file protection) and the
`HumanVerify` class of `human_verify.py` (challenge scoring and session
tokens).  File contents, the on-disk state, and both classes' mutable state
are modelled explicitly; every operation is a pure function from state to
state.  Library primitives that are not part of the repository (PBKDF2,
Fernet, sha256) are modelled as ideal executable stand-ins, documented at
their definitions.
-/

namespace AlignmentEnforcer

/-- Byte strings are modelled as lists of naturals. -/
abbrev Bytes := List Nat

/-- The bytes of a string: the code points of its characters
(model of `str.encode()`). -/
def strBytes (s : String) : Bytes := s.data.map Char.toNat

/-- Model of the symmetric key produced in `constitution_lock.py` by
`PBKDF2HMAC(SHA256, 32, salt, 100000).derive(password)` followed by
`base64.urlsafe_b64encode`: an ideal key-derivation function, represented
by the exact pair of inputs.  It is deterministic and injective, matching
the spec's contract that the same `(password, salt)` always yields the same
key and (ideally) distinct passwords yield distinct keys. -/
structure FernetKey where
  password : String
  salt : Bytes
deriving DecidableEq

/-- `derive password salt` models lines 43-49 and 67-73 of
`constitution_lock.py` (PBKDF2 key derivation wrapped into a `Fernet` key). -/
def derive (password : String) (salt : Bytes) : FernetKey := ⟨password, salt⟩

/-- The protection metadata dictionary built in
`ConstitutionLock.protect_file` (lines 120-128). -/
structure ProtectionMetadata where
  original_path : String
  protection_level : String
  file_hash : Bytes
  protected_timestamp : Nat
  guardian_protection : Bool
  human_authorized : Bool
  constitution_file : Bool
deriving DecidableEq

/-- On-disk file content.  `bytes` is raw data; `enc key d` is a Fernet
token holding ciphertext of `d` under `key` (Fernet is authenticated
encryption, so a token is modelled as a sealed value remembering the key
that produced it); `meta` is the JSON metadata file written by
`protect_file`. -/
inductive Data where
  | bytes (b : Bytes)
  | enc (key : FernetKey) (plain : Data)
  | meta (m : ProtectionMetadata)
deriving DecidableEq

/-- Model of `Fernet(key).encrypt(data)`. -/
def fernetEncrypt (k : FernetKey) (d : Data) : Data := .enc k d

/-- Model of `Fernet(key).decrypt(tok)`: authenticated decryption succeeds
exactly on a token produced under the same key; on any other input the
library raises `InvalidToken`, modelled as `none`. -/
def fernetDecrypt (k : FernetKey) : Data → Option Data
  | .enc k' d => if k' = k then some d else none
  | _ => none

/-- The raw bytes obtained when Python reads a file whose content is `d`
(`open(path,'rb').read()`).  Raw data reads back as itself; the other
constructors are serialised injectively enough for the places they are used
(the salt read in `verify_human_access` and the hash input in
`protect_file`). -/
def rawBytes : Data → Bytes
  | .bytes b => b
  | .enc k d => 1 :: (strBytes k.password ++ [0] ++ k.salt ++ [0] ++ rawBytes d)
  | .meta m =>
      2 :: (strBytes m.original_path ++ [0] ++ strBytes m.protection_level
        ++ [0] ++ m.file_hash ++ [m.protected_timestamp])

/-- Executable stand-in for a cryptographic digest of a byte string. -/
def hashBytes (b : Bytes) : Nat :=
  b.foldl (fun a x => (a * 131 + x + 1) % 1000000007) 5381

/-- Model of `hashlib.sha256(file_data).hexdigest()` applied to the content
`d` of a file.  The repository only ever stores hashes (it never branches
on their value), so any fixed executable function is a faithful model. -/
def sha256 (d : Data) : Bytes := [hashBytes (rawBytes d)]

/-- File permissions (the mode bits passed to `os.chmod`). -/
abbrev Perm := Nat

/-- The file system: a finite map from paths to (content, permissions). -/
abbrev FS := String → Option (Data × Perm)

/-- The empty file system. -/
def emptyFS : FS := fun _ => none

/-- Reading a file (`open(path,'rb').read()`); `none` when the file is
absent (Python raises `FileNotFoundError`). -/
def fsRead (fs : FS) (p : String) : Option Data := (fs p).map Prod.fst

/-- Writing a file (`open(path,'wb')`): overwriting keeps the existing
permissions, creating uses the default mode 0o644. -/
def fsWrite (fs : FS) (p : String) (d : Data) : FS :=
  fun q => if q = p then some (d, ((fs p).map Prod.snd).getD 0o644) else fs q

/-- `os.chmod(p, m)`: changes the permissions, never the content. -/
def fsChmod (fs : FS) (p : String) (m : Perm) : FS :=
  fun q => if q = p then (fs p).map (fun e => (e.1, m)) else fs q

/-- `os.rename(src, dst)`: atomically moves the entry at `src` (content and
permissions) over `dst`. -/
def fsRename (fs : FS) (src dst : String) : FS :=
  match fs src with
  | none => fs
  | some e => fun q => if q = dst then some e else if q = src then none else fs q

/-- `os.path.basename`, implemented as a left fold over the characters. -/
def basename (p : String) : String :=
  String.mk (p.data.foldl (fun acc c => if c = '/' then [] else acc ++ [c]) [])

/-- `self.lock_directory` (constitution_lock.py line 26). -/
def lock_directory : String := "/tmp/guardian_locks"

/-- The salt file path used by `generate_human_token`/`verify_human_access`. -/
def salt_file : String := lock_directory ++ "/human_salt"

/-- The encrypted test-data file path used by `verify_human_access`. -/
def test_file : String := lock_directory ++ "/human_test"

/-- The temporary path `file_path + ".guardian_protected"` used by
`protect_file`. -/
def protPath (fp : String) : String := fp ++ ".guardian_protected"

/-- The metadata path
`os.path.join(lock_directory, basename(file_path) + ".metadata")`. -/
def metaPath (fp : String) : String :=
  lock_directory ++ "/" ++ basename fp ++ ".metadata"

/-- The plaintext `b"HUMAN_VERIFIED"` encrypted into the test file. -/
def testData : Bytes := strBytes "HUMAN_VERIFIED"

/-- One entry of `self.access_log` as appended by `unlock_file_for_human`
(lines 181-187). -/
structure AccessRecord where
  file_path : String
  access_type : String
  timestamp : Nat
  user : String
deriving DecidableEq

/-- The mutable state of a `ConstitutionLock` instance together with the
file system it acts on. -/
structure LockState where
  protected_files : List (String × String × Nat)
  access_log : List AccessRecord
  human_token : Option FernetKey
  fs : FS

/-- `ConstitutionLock.verify_human_access` (lines 60-96): read the stored
salt, derive a key from the supplied password, and test it against the
stored encrypted test file.  If the test file does not exist yet, encrypt
fresh test data under the derived key, store it, and accept.  Any failure
(missing salt, failed test decryption) is caught by the `except` clause and
reported as `false` with the object state unchanged. -/
def verify_human_access (st : LockState) (password : String) : Bool × LockState :=
  match fsRead st.fs salt_file with
  | none => (false, st)
  | some saltD =>
    let key := derive password (rawBytes saltD)
    match fsRead st.fs test_file with
    | some encrypted_test =>
      match fernetDecrypt key encrypted_test with
      | some _ => (true, { st with human_token := some key })
      | none => (false, st)
    | none =>
      let fs1 := fsWrite st.fs test_file (fernetEncrypt key (.bytes testData))
      let fs2 := fsChmod fs1 test_file 0o600
      (true, { st with fs := fs2, human_token := some key })

/-- The I/O steps of `protect_file` that run inside the `try` block, in
source order, used to model a failure (raised exception) at that step. -/
inductive ProtectStep where
  | writeTemp | chmodTemp | writeMeta | chmodMeta | renameFile | chmodFinal
deriving DecidableEq

/-- The metadata record built at lines 120-128 of `constitution_lock.py`. -/
def mkMeta (fp lvl : String) (h : Bytes) (now : Nat) : ProtectionMetadata :=
  { original_path := fp, protection_level := lvl, file_hash := h,
    protected_timestamp := now, guardian_protection := true,
    human_authorized := true, constitution_file := true }

/-- `ConstitutionLock.protect_file` (lines 98-159): requires
`self.human_token` and an existing file; reads the plaintext, hashes it,
encrypts it, writes the ciphertext to the temporary path, chmods it 0o600,
writes the metadata file, chmods it 0o600, renames the temporary path over
the original, chmods the result 0o400, and records the path in
`self.protected_files`.  `failAt = some s` models an exception raised at
step `s`: the step has no effect, the `except` clause catches it, and the
method returns `False` with all file-system effects made so far kept. -/
def protect_file (st : LockState) (now : Nat) (fp lvl : String)
    (failAt : Option ProtectStep) : Bool × LockState :=
  match st.human_token with
  | none => (false, st)
  | some token =>
    match fsRead st.fs fp with
    | none => (false, st)
    | some file_data =>
      let file_hash := sha256 file_data
      let encrypted_data := fernetEncrypt token file_data
      if failAt = some .writeTemp then (false, st) else
      let fs1 := fsWrite st.fs (protPath fp) encrypted_data
      if failAt = some .chmodTemp then (false, { st with fs := fs1 }) else
      let fs2 := fsChmod fs1 (protPath fp) 0o600
      if failAt = some .writeMeta then (false, { st with fs := fs2 }) else
      let fs3 := fsWrite fs2 (metaPath fp) (.meta (mkMeta fp lvl file_hash now))
      if failAt = some .chmodMeta then (false, { st with fs := fs3 }) else
      let fs4 := fsChmod fs3 (metaPath fp) 0o600
      if failAt = some .renameFile then (false, { st with fs := fs4 }) else
      let fs5 := fsRename fs4 (protPath fp) fp
      if failAt = some .chmodFinal then (false, { st with fs := fs5 }) else
      let fs6 := fsChmod fs5 fp 0o400
      (true, { st with
          fs := fs6,
          protected_files := st.protected_files ++ [(fp, lvl, now)] })

/-- The observable result of `unlock_file_for_human`: the Python method
returns the side-file path on success and `False` on both failure paths
(`denied` when `verify_human_access` fails and prints "access denied",
`failed` when the `try` body raises and prints an unlock error). -/
inductive UnlockResult where
  | ok (temp_path : String)
  | denied
  | failed
deriving DecidableEq

/-- `ConstitutionLock.unlock_file_for_human` (lines 161-195): re-verifies
the password, reads the protected file, decrypts it with
`self.human_token`, writes the plaintext to `file_path + ".human_access"`,
and appends a `human_unlock` record to `self.access_log`.  Exceptions in
the body (missing file, failed decryption) are caught and reported as
`failed` with no further effects. -/
def unlock_file_for_human (st : LockState) (now : Nat) (user fp password : String) :
    UnlockResult × LockState :=
  match verify_human_access st password with
  | (false, st1) => (.denied, st1)
  | (true, st1) =>
    match fsRead st1.fs fp with
    | none => (.failed, st1)
    | some encrypted_data =>
      match st1.human_token with
      | none => (.failed, st1)
      | some token =>
        match fernetDecrypt token encrypted_data with
        | none => (.failed, st1)
        | some decrypted_data =>
          let temp_path := fp ++ ".human_access"
          let fs2 := fsWrite st1.fs temp_path decrypted_data
          (.ok temp_path,
            { st1 with
                fs := fs2,
                access_log := st1.access_log ++ [⟨fp, "human_unlock", now, user⟩] })

/-- A hash of a string, standing in for `hashlib.sha256(s.encode())`. -/
def strHash (s : String) : Nat :=
  s.data.foldl (fun a c => (a * 131 + c.toNat) % 100000007) 5381

/-- Model of `hashlib.sha256(f"{t}_{r}".encode()).hexdigest()[:16]`
(human_verify.py line 189): a deterministic digest of the wall-clock time
`t` and the `random.random()` draw `r`, truncated to 16 hex digits. -/
def mkSessionToken (t r : Nat) : String :=
  String.mk ((Nat.toDigits 16 (strHash (toString t ++ "_" ++ toString r))).take 16)

/-- One value of `self.human_sessions` (human_verify.py lines 191-196). -/
structure Session where
  created : Nat
  expires : Nat
  verified_human : Bool
  verification_challenges_passed : Bool
deriving DecidableEq

/-- The session table `self.human_sessions`, keyed by token.  Times are in
seconds. -/
abbrev SessionTable := String → Option Session

/-- The empty session table. -/
def emptySessions : SessionTable := fun _ => none

/-- `HumanVerify.create_human_session` (lines 187-198): the token is built
from the current wall-clock time `now` and the `random.random()` draw
`rand`; the session expires `timedelta(hours=1)` = 3600 seconds after
creation. -/
def create_human_session (hs : SessionTable) (now rand : Nat) : String × SessionTable :=
  let session_token := mkSessionToken now rand
  (session_token,
    fun q => if q = session_token then
      some ⟨now, now + 3600, true, true⟩ else hs q)

/-- `HumanVerify.verify_session` (lines 200-210): false if the token is
unknown; if `datetime.now() > expires` the session is deleted from the
table and the check fails; otherwise true with the table unchanged. -/
def verify_session (hs : SessionTable) (now : Nat) (tok : String) :
    Bool × SessionTable :=
  match hs tok with
  | none => (false, hs)
  | some s =>
    if s.expires < now then (false, fun q => if q = tok then none else hs q)
    else (true, hs)

/-- One challenge of the catalog in `generate_human_challenge`
(lines 35-61).  Durations are in milliseconds. -/
structure Challenge where
  ctype : String
  question : String
  expected_delay : Option (Nat × Nat)
  expected_patterns : List String
  ai_indicators : List String
  suspicious_if_perfect : Bool
deriving DecidableEq

/-- The five-entry challenge catalog of `generate_human_challenge`;
`random.choice` picks one of these. -/
def challenge_catalog : List Challenge :=
  [⟨"timing_challenge", "Type HUMAN exactly 3 seconds after you see this message",
      some (2500, 3500), [], [], false⟩,
   ⟨"contextual_reasoning",
      "If you saw a child about to touch a hot stove, what would you naturally do first?",
      none, ["warn", "shout", "stop", "grab", "prevent", "protect"], [], false⟩,
   ⟨"emotional_response",
      "Describe how you feel when you see a beautiful sunset (be specific)",
      none, [], ["optimal", "efficient", "data", "analysis", "compute"], false⟩,
   ⟨"imperfection_test",
      "Quickly type this sentence with minor natural typos",
      none, [], [], true⟩,
   ⟨"personal_memory", "What was your favorite childhood toy and why? (be personal)",
      none, [], ["simulate", "training data", "language model", "AI system"], false⟩]

/-- Result of `analyze_response_timing`. -/
structure TimingAnalysis where
  suspicious : Bool
  reason : Option String
  response_time : Nat
deriving DecidableEq

/-- `HumanVerify.analyze_response_timing` (lines 64-86), with times in
milliseconds: below 500 ms is always suspicious; a `timing_challenge`
response outside 2500-3500 ms is suspicious; anything else passes. -/
def analyze_response_timing (start_time end_time : Nat) (challenge_type : String) :
    TimingAnalysis :=
  let response_time := end_time - start_time
  if response_time < 500 then
    ⟨true, some "Response too fast for human", response_time⟩
  else if challenge_type = "timing_challenge" &&
      (response_time < 2500 || response_time > 3500) then
    ⟨true, some "Failed timing challenge", response_time⟩
  else ⟨false, none, response_time⟩

/-- Does `needle` occur at the head of `hay`? -/
def leadsWith : List Char → List Char → Bool
  | [], _ => true
  | _ :: _, [] => false
  | a :: as, b :: bs => a = b && leadsWith as bs

/-- Does `needle` occur anywhere in `hay`?  Model of Python's
`needle in hay` on strings. -/
def subList (needle : List Char) : List Char → Bool
  | [] => leadsWith needle []
  | c :: cs => leadsWith needle (c :: cs) || subList needle cs

/-- Python `needle in hay` for strings. -/
def strIn (needle hay : String) : Bool := subList needle.data hay.data

/-- `self.ai_detection_patterns` (human_verify.py lines 25-31). -/
def ai_detection_patterns : List String :=
  ["optimal_response_time", "perfect_accuracy", "computational_language",
   "pattern_repetition", "lack_of_hesitation"]

/-- `indicator.replace('_', ' ')`. -/
def underToSpace (s : String) : String :=
  String.map (fun c => if c = '_' then ' ' else c) s

/-- `text.count(',')`. -/
def countCommas (s : String) : Nat := (s.data.filter (fun c => c = ',')).length

/-- `HumanVerify.is_too_perfect` (lines 114-125): texts longer than 50
characters with no canned typo fragment, no casual filler word, and no
comma are deemed suspiciously perfect. -/
def is_too_perfect (text : String) : Bool :=
  if text.length > 50 then
    let has_typos := ["teh", "hte", "adn", "taht"].any (fun w => strIn w text)
    let has_casual_language :=
      ["um", "uh", "like", "you know"].any (fun w => strIn w text.toLower)
    !has_typos && !has_casual_language && countCommas text < 1
  else false

/-- Result of `analyze_response_content`. -/
structure ContentAnalysis where
  suspicious : Bool
  indicators : List String
  confidence_human : Nat
deriving DecidableEq

/-- `HumanVerify.analyze_response_content` (lines 88-112): collects the
generic AI-language patterns (with underscores spaced) found in the
lowercased response, then the challenge-specific `ai_indicators`, then an
`overly_perfect_response` flag; suspicious iff any indicator was found;
`confidence_human = max(0, 100 - 25 * |indicators|)` (natural subtraction
models the `max(0, ...)`). -/
def analyze_response_content (response : String) (c : Challenge) : ContentAnalysis :=
  let response_lower := response.toLower
  let inds1 := (ai_detection_patterns.filter
      (fun p => strIn (underToSpace p) response_lower))
  let inds2 := (c.ai_indicators.filter (fun i => strIn i response_lower)).map
      (fun i => "ai_language: " ++ i)
  let inds3 := if c.suspicious_if_perfect && is_too_perfect response then
      ["overly_perfect_response"] else []
  let indicators := inds1 ++ inds2 ++ inds3
  ⟨!indicators.isEmpty, indicators, 100 - 25 * indicators.length⟩

/-- One challenge round as experienced by `multi_challenge_verification`:
the drawn challenge, the typed response, and the two `time.time()` reads
around `input()` (milliseconds). -/
structure Trial where
  challenge : Challenge
  response : String
  start_time : Nat
  end_time : Nat
deriving DecidableEq

/-- `challenge_passed` for one round (line 152):
`not (timing_analysis['suspicious'] or content_analysis['suspicious'])`. -/
def challengePassed (t : Trial) : Bool :=
  !((analyze_response_timing t.start_time t.end_time t.challenge.ctype).suspicious
    || (analyze_response_content t.response t.challenge).suspicious)

/-- One entry of `self.verification_log` (lines 162-170). -/
structure VerificationRecord where
  timestamp : Nat
  challenge_type : String
  response_time : Nat
  suspicious_timing : Bool
  suspicious_content : Bool
  passed : Bool
  confidence_human : Nat
deriving DecidableEq

/-- The log record appended for one challenge round. -/
def challengeRecord (t : Trial) (now : Nat) : VerificationRecord :=
  let ta := analyze_response_timing t.start_time t.end_time t.challenge.ctype
  let ca := analyze_response_content t.response t.challenge
  ⟨now, t.challenge.ctype, ta.response_time, ta.suspicious, ca.suspicious,
    challengePassed t, ca.confidence_human⟩

/-- One entry of `self.failed_attempts` (lines 214-220). -/
structure FailedAttempt where
  timestamp : Nat
  atype : String
  user : String
  suspicious_activity : Bool
  possible_ai_attempt : Bool
deriving DecidableEq

/-- The mutable state of a `HumanVerify` instance, plus the alert files it
writes (path and content). -/
structure VerifyState where
  verification_log : List VerificationRecord
  failed_attempts : List FailedAttempt
  human_sessions : SessionTable
  alert_files : List (String × FailedAttempt)

/-- `HumanVerify.log_failed_attempt` (lines 212-228): appends a
`failed_human_verification` record and writes an alert file. -/
def log_failed_attempt (vs : VerifyState) (now : Nat) (user : String) : VerifyState :=
  let attempt : FailedAttempt := ⟨now, "failed_human_verification", user, true, true⟩
  { vs with
      failed_attempts := vs.failed_attempts ++ [attempt],
      alert_files := vs.alert_files ++
        [("/tmp/guardian_ai_access_attempt_" ++ toString now ++ ".json", attempt)] }

/-- The number of the three challenge rounds that passed. -/
def passCount (t1 t2 t3 : Trial) : Nat :=
  (if challengePassed t1 then 1 else 0) + (if challengePassed t2 then 1 else 0) +
    (if challengePassed t3 then 1 else 0)

/-- `HumanVerify.multi_challenge_verification` (lines 127-185): runs
`total_challenges = 3` challenge rounds (`t1`, `t2`, `t3` carry the drawn
challenge and response of each `input()` round), logs each round, and
requires `challenges_passed >= 2`.  On success it creates a session (with
wall-clock time `now` and random draw `rand`) and returns the token; on
failure it returns `None` after `log_failed_attempt`. -/
def multi_challenge_verification (vs : VerifyState) (t1 t2 t3 : Trial)
    (now rand : Nat) (user : String) : Option String × VerifyState :=
  let vs1 := { vs with
      verification_log := vs.verification_log ++
        [challengeRecord t1 now, challengeRecord t2 now, challengeRecord t3 now] }
  let challenges_passed := passCount t1 t2 t3
  if 2 ≤ challenges_passed then
    let r := create_human_session vs1.human_sessions now rand
    (some r.1, { vs1 with human_sessions := r.2 })
  else
    (none, log_failed_attempt vs1 now user)

/-! ### Concrete example states used for evaluation -/

/-- A concrete vault key: the key derived from password `"p@ss"` and the
stored salt `[7]`. -/
def vaultKey : FernetKey := derive "p@ss" [7]

/-- A vault state holding the salt file, a test file created with password
`"p@ss"`, and an unprotected plaintext file `f.txt` with content
`[104, 105]` (`"hi"`); the session has already verified `"p@ss"`. -/
def stPlain : LockState :=
  { protected_files := [], access_log := [], human_token := some vaultKey,
    fs := fsWrite (fsWrite (fsWrite emptyFS salt_file (.bytes [7]))
      test_file (.enc vaultKey (.bytes testData))) "f.txt" (.bytes [104, 105]) }

/-- A vault state in which `f.txt` has already been protected with password
`"p@ss"`: the file holds ciphertext and its metadata record exists with the
correct stored hash. -/
def stProtected : LockState :=
  { protected_files := [("f.txt", "HIGH", 0)], access_log := [],
    human_token := some vaultKey,
    fs := fsWrite (fsWrite (fsWrite (fsWrite emptyFS salt_file (.bytes [7]))
      test_file (.enc vaultKey (.bytes testData)))
      "f.txt" (.enc vaultKey (.bytes [104, 105])))
      (metaPath "f.txt")
      (.meta (mkMeta "f.txt" "HIGH" (sha256 (.bytes [104, 105])) 0)) }

/-- A protected vault state whose metadata record stores a hash `[99]`
that disagrees with the hash of the actual plaintext `[104, 105]`
(a tampered or stale metadata file). -/
def stBadMeta : LockState :=
  { protected_files := [("f.txt", "HIGH", 0)], access_log := [],
    human_token := none,
    fs := fsWrite (fsWrite (fsWrite (fsWrite emptyFS salt_file (.bytes [7]))
      test_file (.enc vaultKey (.bytes testData)))
      "f.txt" (.enc vaultKey (.bytes [104, 105])))
      (metaPath "f.txt") (.meta (mkMeta "f.txt" "HIGH" [99] 0)) }

/-- A fresh vault state right after salt creation: the salt file exists but
the verification test file does not yet. -/
def stSaltOnly : LockState :=
  { protected_files := [], access_log := [], human_token := none,
    fs := fsWrite emptyFS salt_file (.bytes [7]) }

/-! ### Helper lemmas about the file-system model -/

theorem fsRead_fsWrite_self (fs : FS) (p : String) (d : Data) :
    fsRead (fsWrite fs p d) p = some d := by
  simp [fsRead, fsWrite]

theorem fsRead_fsWrite_ne {p q : String} (fs : FS) (d : Data) (h : q ≠ p) :
    fsRead (fsWrite fs p d) q = fsRead fs q := by
  simp [fsRead, fsWrite, h]

theorem fsWrite_self (fs : FS) (p : String) (d : Data) :
    fsWrite fs p d p = some (d, ((fs p).map Prod.snd).getD 0o644) := by
  simp [fsWrite]

theorem fsWrite_ne {p q : String} (fs : FS) (d : Data) (h : q ≠ p) :
    fsWrite fs p d q = fs q := by
  simp [fsWrite, h]

theorem fsRead_fsChmod (fs : FS) (p : String) (m : Perm) (q : String) :
    fsRead (fsChmod fs p m) q = fsRead fs q := by
  by_cases h : q = p
  · subst h; cases hq : fs q <;> simp [fsRead, fsChmod, hq]
  · simp [fsRead, fsChmod, h]

theorem fsChmod_self (fs : FS) (p : String) (m : Perm) :
    fsChmod fs p m p = (fs p).map (fun e => (e.1, m)) := by
  simp [fsChmod]

theorem fsChmod_ne {p q : String} (fs : FS) (m : Perm) (h : q ≠ p) :
    fsChmod fs p m q = fs q := by
  simp [fsChmod, h]

theorem fsRead_fsRename_dst {fs : FS} {src : String} {e : Data × Perm}
    (dst : String) (h : fs src = some e) :
    fsRead (fsRename fs src dst) dst = some e.1 := by
  simp [fsRead, fsRename, h]

theorem fsRead_fsRename_ne {fs : FS} {src dst q : String}
    (h1 : q ≠ dst) (h2 : q ≠ src) :
    fsRead (fsRename fs src dst) q = fsRead fs q := by
  cases hs : fs src <;> simp [fsRead, fsRename, hs, h1, h2]

/-! ### Structural lemmas about the vault operations -/

/-- The full effect of a successful `protect_file` run: the ciphertext is
staged at the temporary path, the metadata is persisted, the temporary
path is renamed over the original, and the result is chmodded 0o400. -/
theorem protect_success_state (st : LockState) (now : Nat) (fp lvl : String)
    (k : FernetKey) (P : Data)
    (htok : st.human_token = some k) (hfile : fsRead st.fs fp = some P) :
    protect_file st now fp lvl none =
      (true,
        { st with
            fs := fsChmod (fsRename (fsChmod (fsWrite (fsChmod
                (fsWrite st.fs (protPath fp) (.enc k P)) (protPath fp) 0o600)
                (metaPath fp) (.meta (mkMeta fp lvl (sha256 P) now)))
                (metaPath fp) 0o600) (protPath fp) fp) fp 0o400,
            protected_files := st.protected_files ++ [(fp, lvl, now)] }) := by
  unfold protect_file
  rw [htok, hfile]
  rfl

/-- `verify_human_access` never touches the file contents of an existing
test file; with the test file present it either accepts (setting only
`human_token`) or rejects with the state unchanged. -/
theorem verify_with_test_present (st : LockState) (password : String)
    (saltD tD : Data)
    (hsalt : fsRead st.fs salt_file = some saltD)
    (htest : fsRead st.fs test_file = some tD) :
    verify_human_access st password =
      (match fernetDecrypt (derive password (rawBytes saltD)) tD with
       | some _ =>
          (true, { st with human_token := some (derive password (rawBytes saltD)) })
       | none => (false, st)) := by
  unfold verify_human_access
  rw [hsalt, htest]

/-- `verify_human_access` never touches the access log. -/
theorem verify_access_log (st : LockState) (password : String) :
    ((verify_human_access st password).2).access_log = st.access_log := by
  cases hs : fsRead st.fs salt_file with
  | none =>
    unfold verify_human_access
    rw [hs]
  | some saltD =>
    cases ht : fsRead st.fs test_file with
    | none =>
      unfold verify_human_access
      rw [hs, ht]
    | some tD =>
      rw [verify_with_test_present st password saltD tD hs ht]
      cases fernetDecrypt (derive password (rawBytes saltD)) tD <;> rfl

/-- The full effect of a successful `unlock_file_for_human` run on a state
whose test file and target file are both encrypted under the key derived
from the supplied password. -/
theorem unlock_success_state (st : LockState) (now : Nat) (user fp password : String)
    (saltD m P : Data)
    (hsalt : fsRead st.fs salt_file = some saltD)
    (htest : fsRead st.fs test_file = some (.enc (derive password (rawBytes saltD)) m))
    (hfile : fsRead st.fs fp = some (.enc (derive password (rawBytes saltD)) P)) :
    unlock_file_for_human st now user fp password =
      (.ok (fp ++ ".human_access"),
        { st with
            human_token := some (derive password (rawBytes saltD)),
            fs := fsWrite st.fs (fp ++ ".human_access") P,
            access_log := st.access_log ++ [⟨fp, "human_unlock", now, user⟩] }) := by
  unfold unlock_file_for_human
  rw [verify_with_test_present st password saltD _ hsalt htest]
  simp only [fernetDecrypt, if_pos rfl]
  show (match fsRead st.fs fp with
    | none => _
    | some encrypted_data => _) = _
  rw [hfile]
  simp [fernetDecrypt]

/-- Looking up a freshly created session finds it, with a one-hour expiry. -/
theorem create_session_lookup (hs : SessionTable) (now rand : Nat) :
    (create_human_session hs now rand).2 (create_human_session hs now rand).1 =
      some ⟨now, now + 3600, true, true⟩ := by
  unfold create_human_session
  simp

/-- `verify_session` on a token present in the table. -/
theorem verify_session_found {hs : SessionTable} {tok : String} {s : Session}
    (now : Nat) (h : hs tok = some s) :
    verify_session hs now tok =
      if s.expires < now then (false, fun q => if q = tok then none else hs q)
      else (true, hs) := by
  unfold verify_session
  rw [h]

/-! ### The claims -/

/-- Claim C7: for every session created at time `T`, validating its token
returns true at any time strictly before `T` plus 1 hour (in particular at
`T` + 59 min) and false at any time strictly past `T` + 1 hour (in
particular at `T` + 61 min), and the expired session is evicted from the
session table by the validation lookup itself. -/
theorem session_ttl_one_hour (hs : SessionTable) (now rand t : Nat) :
    (t < now + 3600 →
      verify_session (create_human_session hs now rand).2 t
          (create_human_session hs now rand).1 =
        (true, (create_human_session hs now rand).2)) ∧
    (now + 3600 < t →
      (verify_session (create_human_session hs now rand).2 t
          (create_human_session hs now rand).1).1 = false ∧
      (verify_session (create_human_session hs now rand).2 t
          (create_human_session hs now rand).1).2
          (create_human_session hs now rand).1 = none) := by
  constructor
  · intro h
    rw [verify_session_found t (create_session_lookup hs now rand)]
    rw [if_neg (show ¬(now + 3600 < t) by omega)]
  · intro h
    rw [verify_session_found t (create_session_lookup hs now rand)]
    rw [if_pos (show now + 3600 < t from h)]
    exact ⟨rfl, by simp⟩

/-- Claim C7 witness: a session created at `T = 0` validates at `T` + 59
min (3540 s) and fails at `T` + 61 min (3660 s), the lookup evicting the
expired entry. -/
theorem session_ttl_one_hour_witness :
    (verify_session (create_human_session emptySessions 0 5).2 3540
        (create_human_session emptySessions 0 5).1 =
      (true, (create_human_session emptySessions 0 5).2)) ∧
    (verify_session (create_human_session emptySessions 0 5).2 3660
        (create_human_session emptySessions 0 5).1).1 = false ∧
    (verify_session (create_human_session emptySessions 0 5).2 3660
        (create_human_session emptySessions 0 5).1).2
        (create_human_session emptySessions 0 5).1 = none :=
  ⟨(session_ttl_one_hour emptySessions 0 5 3540).1 (by decide),
   ((session_ttl_one_hour emptySessions 0 5 3660).2 (by decide)).1,
   ((session_ttl_one_hour emptySessions 0 5 3660).2 (by decide)).2⟩

/-- Claim C8: `multi_challenge_verification` runs exactly 3 challenge
rounds (appending exactly 3 entries to the verification log) and yields a
session token if and only if at least 2 of the 3 rounds pass; with
outcomes (P,P,F) it succeeds, with (P,F,F) or (F,F,F) it returns no
token. -/
theorem multi_challenge_majority (vs : VerifyState) (t1 t2 t3 : Trial)
    (now rand : Nat) (user : String) :
    ((multi_challenge_verification vs t1 t2 t3 now rand user).1.isSome = true ↔
      2 ≤ passCount t1 t2 t3) ∧
    (multi_challenge_verification vs t1 t2 t3 now rand user).2.verification_log.length
      = vs.verification_log.length + 3 := by
  constructor
  · unfold multi_challenge_verification
    by_cases h : 2 ≤ passCount t1 t2 t3
    · rw [if_pos h]
      simpa using h
    · rw [if_neg h]
      simpa using h
  · unfold multi_challenge_verification
    by_cases h : 2 ≤ passCount t1 t2 t3
    · rw [if_pos h]
      simp
    · rw [if_neg h]
      simp [log_failed_attempt]

/-- Claim C9, corrected: the session token is a deterministic function
`mkSessionToken` of the wall-clock time and the non-cryptographic
`random.random()` draw alone — independent of any other state — so an
observer knowing both inputs reproduces it. -/
theorem session_token_deterministic (hs1 hs2 : SessionTable) (now rand : Nat) :
    (create_human_session hs1 now rand).1 = mkSessionToken now rand ∧
    (create_human_session hs1 now rand).1 = (create_human_session hs2 now rand).1 :=
  ⟨rfl, rfl⟩

/-- Claim C9 counterexample: at wall-clock time 1700000000 with random
draw 123456, the issued session token is exactly the value any observer
recomputes from those two inputs (even from a different session-table
state), refuting unpredictability of the token. -/
theorem session_token_reproducible_concrete :
    (create_human_session emptySessions 1700000000 123456).1 =
      mkSessionToken 1700000000 123456 ∧
    (create_human_session (create_human_session emptySessions 5 6).2
        1700000000 123456).1 = mkSessionToken 1700000000 123456 ∧
    mkSessionToken 1700000000 123456 = "261a6dc" :=
  ⟨rfl, rfl, by decide⟩

/-- Claim C10: when the stored verification test file does not yet exist
(first use after the salt was installed), `verify_human_access` accepts
any password whatsoever: it derives a key from the supplied password,
writes the test file encrypted under that key (chmod 0o600), sets
`human_token` to that key, and returns true. -/
theorem first_verify_accepts_any_password (st : LockState) (password : String)
    (saltD : Data)
    (hsalt : fsRead st.fs salt_file = some saltD)
    (htest : fsRead st.fs test_file = none) :
    verify_human_access st password =
      (true,
        { st with
            human_token := some (derive password (rawBytes saltD)),
            fs := fsChmod (fsWrite st.fs test_file
              (fernetEncrypt (derive password (rawBytes saltD)) (.bytes testData)))
              test_file 0o600 }) := by
  unfold verify_human_access
  rw [hsalt, htest]

/-- Claim C10 witness: on the fresh state with only the salt installed,
the arbitrary password "anything" is accepted and becomes the vault
password. -/
theorem first_verify_accepts_any_password_witness :
    verify_human_access stSaltOnly "anything" =
      (true,
        { stSaltOnly with
            human_token := some (derive "anything" [7]),
            fs := fsChmod (fsWrite stSaltOnly.fs test_file
              (fernetEncrypt (derive "anything" [7]) (.bytes testData)))
              test_file 0o600 }) :=
  first_verify_accepts_any_password stSaltOnly "anything" (.bytes [7])
    (by decide) (by decide)

/-- Claim C4: `unlock_file_for_human` never recomputes or compares the
plaintext hash against the stored `ProtectionMetadata`: on a protected
state whose metadata record stores the hash `[99]`, which disagrees with
the hash of the actual plaintext `[104, 105]`, unlock nevertheless
succeeds and writes the plaintext out, with no `IntegrityMismatch`
failure. -/
theorem unlock_ignores_stored_hash :
    fsRead stBadMeta.fs (metaPath "f.txt") =
      some (.meta (mkMeta "f.txt" "HIGH" [99] 0)) ∧
    (mkMeta "f.txt" "HIGH" [99] 0).file_hash ≠ sha256 (.bytes [104, 105]) ∧
    (unlock_file_for_human stBadMeta 3 "u" "f.txt" "p@ss").1 =
      .ok "f.txt.human_access" ∧
    fsRead (unlock_file_for_human stBadMeta 3 "u" "f.txt" "p@ss").2.fs
      "f.txt.human_access" = some (.bytes [104, 105]) := by
  decide

/-- Claim C6, corrected: `unlock_file_for_human` appends an access-log
entry only on success (with `access_type = "human_unlock"`); every failing
call — verification failure or an error in the unlock body — leaves the
access log exactly as it was. -/
theorem unlock_logs_only_success (st : LockState) (now : Nat)
    (user fp password : String) :
    (unlock_file_for_human st now user fp password).2.access_log =
      st.access_log ++
        (match (unlock_file_for_human st now user fp password).1 with
         | .ok _ => [⟨fp, "human_unlock", now, user⟩]
         | _ => []) := by
  unfold unlock_file_for_human
  rcases hv : verify_human_access st password with ⟨b, st1⟩
  have hlog : st1.access_log = st.access_log := by
    have h := verify_access_log st password
    rw [hv] at h
    exact h
  cases b
  · simp [hlog]
  · cases hr : fsRead st1.fs fp with
    | none => simp [hr, hlog]
    | some ed =>
      cases ht : st1.human_token with
      | none => simp [hr, ht, hlog]
      | some token =>
        cases hd : fernetDecrypt token ed with
        | none => simp [hr, ht, hd, hlog]
        | some dd => simp [hr, ht, hd, hlog]

/-- Claim C6 counterexample: a wrong-password unlock on the protected
state is denied but appends nothing to the access log (which stays
empty), so the failed attempt is not recorded. -/
theorem failed_unlock_not_logged_concrete :
    (unlock_file_for_human stProtected 7 "u" "f.txt" "wrong").1 = .denied ∧
    (unlock_file_for_human stProtected 7 "u" "f.txt" "wrong").2.access_log = [] ∧
    stProtected.access_log = [] := by
  decide

/-- The state left behind by `protect_file` when a step between the
temporary-file write and the rename raises: the effects made so far are
kept and the method returns `False`. -/
theorem protect_fail_state (st : LockState) (now : Nat) (fp lvl : String)
    (k : FernetKey) (P : Data)
    (htok : st.human_token = some k) (hfd : fsRead st.fs fp = some P) :
    protect_file st now fp lvl (some .chmodTemp) =
      (false, { st with fs := fsWrite st.fs (protPath fp) (.enc k P) }) ∧
    protect_file st now fp lvl (some .writeMeta) =
      (false, { st with
        fs := fsChmod (fsWrite st.fs (protPath fp) (.enc k P)) (protPath fp) 0o600 }) ∧
    protect_file st now fp lvl (some .chmodMeta) =
      (false, { st with
        fs := fsWrite (fsChmod (fsWrite st.fs (protPath fp) (.enc k P))
          (protPath fp) 0o600) (metaPath fp)
          (.meta (mkMeta fp lvl (sha256 P) now)) }) ∧
    protect_file st now fp lvl (some .renameFile) =
      (false, { st with
        fs := fsChmod (fsWrite (fsChmod (fsWrite st.fs (protPath fp) (.enc k P))
          (protPath fp) 0o600) (metaPath fp)
          (.meta (mkMeta fp lvl (sha256 P) now))) (metaPath fp) 0o600 }) := by
  refine ⟨?_, ?_, ?_, ?_⟩ <;>
    (unfold protect_file; rw [htok, hfd]; rfl)

/-- Claim C2, corrected: if the temporary-file permission setting, the
metadata persistence (write or chmod), or the rename fails after the
ciphertext has been written to the temporary path, `protect_file` reports
failure and the original file at the target path is byte-identical to its
pre-protect content.  (The final permission-setting step is not covered:
it runs after the rename has already replaced the file — see the
counterexample.) -/
theorem protect_original_intact_before_rename (st : LockState) (now : Nat)
    (fp lvl : String) (failAt : Option ProtectStep)
    (hstep : failAt = some .chmodTemp ∨ failAt = some .writeMeta ∨
      failAt = some .chmodMeta ∨ failAt = some .renameFile)
    (h1 : fp ≠ protPath fp) (h2 : fp ≠ metaPath fp) :
    (protect_file st now fp lvl failAt).1 = false ∧
    fsRead (protect_file st now fp lvl failAt).2.fs fp = fsRead st.fs fp := by
  cases htok : st.human_token with
  | none =>
    have hres : protect_file st now fp lvl failAt = (false, st) := by
      unfold protect_file
      rw [htok]
    rw [hres]
    exact ⟨rfl, rfl⟩
  | some k =>
    cases hfd : fsRead st.fs fp with
    | none =>
      have hres : protect_file st now fp lvl failAt = (false, st) := by
        unfold protect_file
        rw [htok, hfd]
      rw [hres]
      exact ⟨rfl, hfd⟩
    | some P =>
      have hfs := protect_fail_state st now fp lvl k P htok hfd
      rcases hstep with h | h | h | h <;> subst h
      · rw [hfs.1]
        exact ⟨rfl, (fsRead_fsWrite_ne _ _ h1).trans hfd⟩
      · rw [hfs.2.1]
        exact ⟨rfl, (fsRead_fsChmod _ _ _ _).trans
          ((fsRead_fsWrite_ne _ _ h1).trans hfd)⟩
      · rw [hfs.2.2.1]
        exact ⟨rfl, (fsRead_fsWrite_ne _ _ h2).trans
          ((fsRead_fsChmod _ _ _ _).trans ((fsRead_fsWrite_ne _ _ h1).trans hfd))⟩
      · rw [hfs.2.2.2]
        exact ⟨rfl, (fsRead_fsChmod _ _ _ _).trans ((fsRead_fsWrite_ne _ _ h2).trans
          ((fsRead_fsChmod _ _ _ _).trans ((fsRead_fsWrite_ne _ _ h1).trans hfd)))⟩

/-- Claim C2 witness: a rename failure on the concrete plaintext state
reports failure and leaves `f.txt` byte-identical. -/
theorem protect_original_intact_before_rename_witness :
    (protect_file stPlain 1 "f.txt" "HIGH" (some .renameFile)).1 = false ∧
    fsRead (protect_file stPlain 1 "f.txt" "HIGH" (some .renameFile)).2.fs "f.txt" =
      fsRead stPlain.fs "f.txt" :=
  protect_original_intact_before_rename stPlain 1 "f.txt" "HIGH" _
    (Or.inr (Or.inr (Or.inr rfl))) (by decide) (by decide)

/-- Claim C2 counterexample: if the final permission-setting step (the
chmod to 0o400, which the code runs after the rename) fails, `protect_file`
reports failure but the target path already holds the ciphertext — it is
not byte-identical to the pre-protect plaintext. -/
theorem protect_chmod_after_rename_replaces_file :
    fsRead stPlain.fs "f.txt" = some (.bytes [104, 105]) ∧
    (protect_file stPlain 1 "f.txt" "HIGH" (some .chmodFinal)).1 = false ∧
    fsRead (protect_file stPlain 1 "f.txt" "HIGH" (some .chmodFinal)).2.fs "f.txt" =
      some (.enc vaultKey (.bytes [104, 105])) ∧
    (Data.enc vaultKey (.bytes [104, 105])) ≠ .bytes [104, 105] := by
  decide

/-- Claim C5, corrected: `protect_file` performs no already-protected
check at all: on a path whose metadata record already exists it does not
fail with `AlreadyProtected` but succeeds, encrypting the stored
ciphertext a second time and overwriting the metadata record. -/
theorem protect_no_already_protected_check (st : LockState) (now : Nat)
    (fp lvl : String) (k : FernetKey) (C M : Data)
    (htok : st.human_token = some k)
    (hfile : fsRead st.fs fp = some C)
    (hmeta : fsRead st.fs (metaPath fp) = some M)
    (h1 : metaPath fp ≠ protPath fp) (h2 : metaPath fp ≠ fp) :
    (protect_file st now fp lvl none).1 = true ∧
    fsRead (protect_file st now fp lvl none).2.fs fp = some (.enc k C) ∧
    fsRead (protect_file st now fp lvl none).2.fs (metaPath fp) =
      some (.meta (mkMeta fp lvl (sha256 C) now)) := by
  rw [protect_success_state st now fp lvl k C htok hfile]
  refine ⟨rfl, ?_, ?_⟩
  · have hsrc : (fsChmod (fsWrite (fsChmod (fsWrite st.fs (protPath fp)
        (.enc k C)) (protPath fp) 0o600) (metaPath fp)
        (.meta (mkMeta fp lvl (sha256 C) now))) (metaPath fp) 0o600)
        (protPath fp) = some (.enc k C, 0o600) := by
      rw [fsChmod_ne _ _ (Ne.symm h1), fsWrite_ne _ _ (Ne.symm h1),
        fsChmod_self, fsWrite_self]
      exact rfl
    exact (fsRead_fsChmod _ _ _ _).trans (fsRead_fsRename_dst fp hsrc)
  · exact (fsRead_fsChmod _ _ _ _).trans ((fsRead_fsRename_ne h2 h1).trans
      ((fsRead_fsChmod _ _ _ _).trans (fsRead_fsWrite_self _ _ _)))

/-- Claim C5 witness: re-protecting the concrete already-protected state
succeeds, double-encrypts, and overwrites the metadata. -/
theorem protect_no_already_protected_check_witness :
    (protect_file stProtected 9 "f.txt" "HIGH" none).1 = true ∧
    fsRead (protect_file stProtected 9 "f.txt" "HIGH" none).2.fs "f.txt" =
      some (.enc vaultKey (.enc vaultKey (.bytes [104, 105]))) ∧
    fsRead (protect_file stProtected 9 "f.txt" "HIGH" none).2.fs (metaPath "f.txt") =
      some (.meta (mkMeta "f.txt" "HIGH"
        (sha256 (.enc vaultKey (.bytes [104, 105]))) 9)) :=
  protect_no_already_protected_check stProtected 9 "f.txt" "HIGH" vaultKey
    (.enc vaultKey (.bytes [104, 105]))
    (.meta (mkMeta "f.txt" "HIGH" (sha256 (.bytes [104, 105])) 0))
    (by decide) (by decide) (by decide) (by decide) (by decide)

/-- Claim C5 counterexample: on the concrete state whose metadata record
for `f.txt` exists (the path is already protected), `protect_file` does
not fail: it returns success and the file ends up encrypted twice. -/
theorem protect_already_protected_reencrypts_concrete :
    fsRead stProtected.fs (metaPath "f.txt") ≠ none ∧
    (protect_file stProtected 9 "f.txt" "HIGH" none).1 = true ∧
    fsRead (protect_file stProtected 9 "f.txt" "HIGH" none).2.fs "f.txt" =
      some (.enc vaultKey (.enc vaultKey (.bytes [104, 105]))) := by
  decide

/-- Claim C3: unlocking a file protected with password `W1` using a
different password `W2` is denied — the wrong-password key fails the
authenticated test-decryption inside `verify_human_access` — and the
state is left completely unchanged: no side file, no plaintext, nothing
decodable is ever produced. -/
theorem wrong_password_unlock_denied (st : LockState) (now : Nat)
    (user fp W1 W2 : String) (saltD m P : Data)
    (hW : W1 ≠ W2)
    (hsalt : fsRead st.fs salt_file = some saltD)
    (htest : fsRead st.fs test_file = some (.enc (derive W1 (rawBytes saltD)) m))
    (hfile : fsRead st.fs fp = some (.enc (derive W1 (rawBytes saltD)) P)) :
    unlock_file_for_human st now user fp W2 = (.denied, st) := by
  unfold unlock_file_for_human
  rw [verify_with_test_present st W2 saltD _ hsalt htest]
  have hdec : fernetDecrypt (derive W2 (rawBytes saltD))
      (.enc (derive W1 (rawBytes saltD)) m) = none := by
    show (if derive W1 (rawBytes saltD) = derive W2 (rawBytes saltD)
      then some m else none) = none
    rw [if_neg]
    intro h
    exact hW (congrArg FernetKey.password h)
  rw [hdec]

/-- Claim C3 witness: on the protected concrete state (protected with
`"p@ss"`), unlocking with `"wrong"` is denied and the state is unchanged. -/
theorem wrong_password_unlock_denied_witness :
    unlock_file_for_human stProtected 7 "u" "f.txt" "wrong" =
      (.denied, stProtected) :=
  wrong_password_unlock_denied stProtected 7 "u" "f.txt" "p@ss" "wrong"
    (.bytes [7]) (.bytes testData) (.bytes [104, 105])
    (by decide) (by decide) (by decide) (by decide)

/-- Claim C1: protecting a file with content `P` under the session
password `W` and then unlocking it with the same `W` succeeds: the unlock
returns the side path `fp ++ ".human_access"`, the side file holds exactly
`P`, and the metadata record stores `sha256 P` — the hash of the recovered
plaintext, so content and hash match.  The inequality hypotheses say only
that the protected path is none of the vault's own bookkeeping paths. -/
theorem round_trip_protect_unlock (st : LockState) (now now2 : Nat)
    (user W fp lvl : String) (saltD m P : Data)
    (hsalt : fsRead st.fs salt_file = some saltD)
    (htok : st.human_token = some (derive W (rawBytes saltD)))
    (htest : fsRead st.fs test_file = some (.enc (derive W (rawBytes saltD)) m))
    (hfile : fsRead st.fs fp = some P)
    (h1 : salt_file ≠ fp) (h2 : salt_file ≠ protPath fp)
    (h3 : salt_file ≠ metaPath fp)
    (h4 : test_file ≠ fp) (h5 : test_file ≠ protPath fp)
    (h6 : test_file ≠ metaPath fp)
    (h7 : metaPath fp ≠ fp) (h8 : metaPath fp ≠ protPath fp) :
    (protect_file st now fp lvl none).1 = true ∧
    (unlock_file_for_human (protect_file st now fp lvl none).2
      now2 user fp W).1 = .ok (fp ++ ".human_access") ∧
    fsRead (unlock_file_for_human (protect_file st now fp lvl none).2
      now2 user fp W).2.fs (fp ++ ".human_access") = some P ∧
    fsRead (protect_file st now fp lvl none).2.fs (metaPath fp) =
      some (.meta (mkMeta fp lvl (sha256 P) now)) := by
  have hp := protect_success_state st now fp lvl (derive W (rawBytes saltD)) P
    htok hfile
  have hfs : (protect_file st now fp lvl none).2.fs =
      fsChmod (fsRename (fsChmod (fsWrite (fsChmod (fsWrite st.fs (protPath fp)
        (.enc (derive W (rawBytes saltD)) P)) (protPath fp) 0o600) (metaPath fp)
        (.meta (mkMeta fp lvl (sha256 P) now))) (metaPath fp) 0o600)
        (protPath fp) fp) fp 0o400 := by
    rw [hp]
  have hsalt1 : fsRead (protect_file st now fp lvl none).2.fs salt_file =
      some saltD := by
    rw [hfs]
    exact (fsRead_fsChmod _ _ _ _).trans ((fsRead_fsRename_ne h1 h2).trans
      ((fsRead_fsChmod _ _ _ _).trans ((fsRead_fsWrite_ne _ _ h3).trans
      ((fsRead_fsChmod _ _ _ _).trans ((fsRead_fsWrite_ne _ _ h2).trans hsalt)))))
  have htest1 : fsRead (protect_file st now fp lvl none).2.fs test_file =
      some (.enc (derive W (rawBytes saltD)) m) := by
    rw [hfs]
    exact (fsRead_fsChmod _ _ _ _).trans ((fsRead_fsRename_ne h4 h5).trans
      ((fsRead_fsChmod _ _ _ _).trans ((fsRead_fsWrite_ne _ _ h6).trans
      ((fsRead_fsChmod _ _ _ _).trans ((fsRead_fsWrite_ne _ _ h5).trans htest)))))
  have hfile1 : fsRead (protect_file st now fp lvl none).2.fs fp =
      some (.enc (derive W (rawBytes saltD)) P) := by
    rw [hfs]
    have hsrc : (fsChmod (fsWrite (fsChmod (fsWrite st.fs (protPath fp)
        (.enc (derive W (rawBytes saltD)) P)) (protPath fp) 0o600) (metaPath fp)
        (.meta (mkMeta fp lvl (sha256 P) now))) (metaPath fp) 0o600)
        (protPath fp) = some (.enc (derive W (rawBytes saltD)) P, 0o600) := by
      rw [fsChmod_ne _ _ (Ne.symm h8), fsWrite_ne _ _ (Ne.symm h8),
        fsChmod_self, fsWrite_self]
      exact rfl
    exact (fsRead_fsChmod _ _ _ _).trans (fsRead_fsRename_dst fp hsrc)
  have hu := unlock_success_state ((protect_file st now fp lvl none).2)
    now2 user fp W saltD m P hsalt1 htest1 hfile1
  refine ⟨by rw [hp], by rw [hu], ?_, ?_⟩
  · rw [hu]
    exact fsRead_fsWrite_self _ _ _
  · rw [hfs]
    exact (fsRead_fsChmod _ _ _ _).trans ((fsRead_fsRename_ne h7 h8).trans
      ((fsRead_fsChmod _ _ _ _).trans (fsRead_fsWrite_self _ _ _)))

/-- Claim C1 witness: the round trip on the concrete state — protect
`f.txt` (content `[104, 105]`) with password `"p@ss"`, then unlock with
`"p@ss"` — recovers the content in `f.txt.human_access`, with the stored
hash equal to the hash of the recovered plaintext. -/
theorem round_trip_protect_unlock_witness :
    (protect_file stPlain 1 "f.txt" "HIGH" none).1 = true ∧
    (unlock_file_for_human (protect_file stPlain 1 "f.txt" "HIGH" none).2
      2 "u" "f.txt" "p@ss").1 = .ok "f.txt.human_access" ∧
    fsRead (unlock_file_for_human (protect_file stPlain 1 "f.txt" "HIGH" none).2
      2 "u" "f.txt" "p@ss").2.fs "f.txt.human_access" = some (.bytes [104, 105]) ∧
    fsRead (protect_file stPlain 1 "f.txt" "HIGH" none).2.fs (metaPath "f.txt") =
      some (.meta (mkMeta "f.txt" "HIGH" (sha256 (.bytes [104, 105])) 1)) :=
  round_trip_protect_unlock stPlain 1 2 "u" "p@ss" "f.txt" "HIGH"
    (.bytes [7]) (.bytes testData) (.bytes [104, 105])
    (by decide) (by decide) (by decide) (by decide) (by decide) (by decide)
    (by decide) (by decide) (by decide) (by decide) (by decide) (by decide)

end AlignmentEnforcer
